import Mathlib

/-!
Verification of the EOS_connect inverter-interface core against its
natural-language specification.

The development shallowly embeds the Python sources:
- `src/interfaces/inverter_base.py` (`BaseInverter`),
- `src/interfaces/inverters/null_inverter.py` (`NullInverter`),
- `src/interfaces/inverters/victron.py` (`VictronInverter`),
- `src/interfaces/inverters/inverter_factory.py` (`create_inverter` and the
  two registry dictionaries).

Methods are embedded as explicit state-passing functions.  A method call is
modelled by `MRes`: its Python return value (or raised exception) in `ret`,
the instance state after the call in `state`, the list of arguments with
which the `set_battery_mode` primitive was entered during the call in
`primCalls`, and the network operations performed during the call in `net`.

The Fronius backends (`fronius_legacy.py`, `fronius_v2.py`) are imported by
the factory and exercised by the repository's tests, but their module files
are not part of the sources available here; the parts of their behaviour
that the specification pins down are modelled from the specification (each
such definition carries a doc comment saying so).
-/

/-- Model of the Python exceptions relevant to the inverter core:
`NotImplementedError` (used by the Victron stub and by abstract bodies),
`ValueError` (raised by the factory for unknown types) and a
connection/IO failure as raised by the HTTP transport. -/
inductive PyErr where
  | notImplementedError
  | valueError (msg : String)
  | transportError
deriving DecidableEq, Repr

/-- Configuration dictionary as read by `BaseInverter.__init__`
(`config.get(...)` on the keys `type`, `address`, `user`, `password`,
`max_grid_charge_rate`, `max_pv_charge_rate`); a `none` field models an
absent key. -/
structure Config where
  type? : Option String := none
  address? : Option String := none
  user? : Option String := none
  password? : Option String := none
  max_grid_charge_rate? : Option Int := none
  max_pv_charge_rate? : Option Int := none
deriving DecidableEq, Repr

/-- Instance attributes set by `BaseInverter.__init__`
(inverter_base.py lines 18-32). -/
structure InverterState where
  config : Config
  address : Option String
  user : String
  password : String
  max_grid_charge_rate : Option Int
  max_pv_charge_rate : Option Int
  is_authenticated : Bool
  inverter_type : String
deriving DecidableEq, Repr

/-- Python's `str.lower()` as used by the sources (ASCII case folding):
maps `Char.toLower` over the characters of the string. -/
def pyLower (s : String) : String :=
  String.mk (s.data.map Char.toLower)

/-- Python's `str.startswith("_")` on a key: true when the first
character is the underscore marker. -/
def starts_with_underscore (k : String) : Bool :=
  match k.data with
  | [] => false
  | c :: _ => c == '_'

/-- `BaseInverter.__init__(config)` (inverter_base.py lines 18-32):
stores the config, extracts the common values (`user` defaults to
`"customer"` and is lowercased, `password` defaults to `""`), and sets
`is_authenticated = False`.  `inverter_type` is the concrete class name. -/
def BaseInverter.init (inverter_type : String) (config : Config) : InverterState :=
  { config := config
    address := config.address?
    user := pyLower (config.user?.getD "customer")
    password := config.password?.getD ""
    max_grid_charge_rate := config.max_grid_charge_rate?
    max_pv_charge_rate := config.max_pv_charge_rate?
    is_authenticated := false
    inverter_type := inverter_type }

/-- Result of one method call: the Python return value or raised exception,
the instance state afterwards, the arguments of every entry into the
`set_battery_mode` primitive during the call, and the network operations
performed during the call. -/
structure MRes (α : Type) where
  ret : Except PyErr α
  state : InverterState
  primCalls : List String
  net : List String

/-- `BaseInverter.authenticate` (inverter_base.py lines 41-49): default
authentication does nothing, marks the instance authenticated and
returns `True`. -/
def BaseInverter.authenticate (s : InverterState) : MRes Bool :=
  { ret := .ok true
    state := { s with is_authenticated := true }
    primCalls := []
    net := [] }

/-- Default body of the abstract `BaseInverter.set_mode_avoid_discharge`
(inverter_base.py lines 60-63): `return self.set_battery_mode("hold")`,
parameterized by the concrete `set_battery_mode` implementation. -/
def BaseInverter.set_mode_avoid_discharge
    (set_battery_mode : InverterState → String → MRes Bool)
    (s : InverterState) : MRes Bool :=
  set_battery_mode s "hold"

/-- Default body of the abstract `BaseInverter.set_mode_allow_discharge`
(inverter_base.py lines 65-68): `return self.set_battery_mode("normal")`. -/
def BaseInverter.set_mode_allow_discharge
    (set_battery_mode : InverterState → String → MRes Bool)
    (s : InverterState) : MRes Bool :=
  set_battery_mode s "normal"

/-- `BaseInverter.supports_extended_monitoring` (inverter_base.py lines
132-141): returns `False` by default. -/
def BaseInverter.supports_extended_monitoring (s : InverterState) : MRes Bool :=
  { ret := .ok false, state := s, primCalls := [], net := [] }

/-- `BaseInverter.api_set_max_pv_charge_rate` (inverter_base.py lines
115-130): default implementation is a logging no-op. -/
def BaseInverter.api_set_max_pv_charge_rate (s : InverterState)
    (max_pv_charge_rate : Int) : MRes Unit :=
  { ret := .ok (), state := s, primCalls := [], net := [] }

/- ### NullInverter (null_inverter.py) -/

/-- `NullInverter.__init__` (null_inverter.py lines 20-26): calls
`super().__init__(config)` and logs; no further state. -/
def NullInverter.construct (config : Config) : InverterState :=
  BaseInverter.init "NullInverter" config

/-- The initialize() method of NullInverter (null_inverter.py lines
28-31): sets `is_authenticated = True`, returns `None`. -/
def NullInverter.heavy_init (s : InverterState) : MRes Unit :=
  { ret := .ok ()
    state := { s with is_authenticated := true }
    primCalls := []
    net := [] }

/-- `NullInverter.connect_inverter` (null_inverter.py lines 33-36):
logging no-op returning `True`. -/
def NullInverter.connect_inverter (s : InverterState) : MRes Bool :=
  { ret := .ok true, state := s, primCalls := [], net := [] }

/-- `NullInverter.disconnect_inverter` (null_inverter.py lines 38-41):
logging no-op returning `True`. -/
def NullInverter.disconnect_inverter (s : InverterState) : MRes Bool :=
  { ret := .ok true, state := s, primCalls := [], net := [] }

/-- `NullInverter.set_battery_mode` (null_inverter.py lines 43-46):
logging no-op returning `True` for any mode; entering the primitive with
argument `mode` is recorded in `primCalls`. -/
def NullInverter.set_battery_mode (s : InverterState) (mode : String) : MRes Bool :=
  { ret := .ok true, state := s, primCalls := [mode], net := [] }

/-- `NullInverter.set_mode_avoid_discharge` (null_inverter.py lines 48-51):
overrides the abstract method and returns `True` directly, without
invoking the `set_battery_mode` primitive. -/
def NullInverter.set_mode_avoid_discharge (s : InverterState) : MRes Bool :=
  { ret := .ok true, state := s, primCalls := [], net := [] }

/-- `NullInverter.set_mode_allow_discharge` (null_inverter.py lines 53-56):
overrides the abstract method and returns `True` directly, without
invoking the `set_battery_mode` primitive. -/
def NullInverter.set_mode_allow_discharge (s : InverterState) : MRes Bool :=
  { ret := .ok true, state := s, primCalls := [], net := [] }

/-- `NullInverter.set_mode_force_charge` (null_inverter.py lines 58-63):
logging no-op returning `True` for any requested power. -/
def NullInverter.set_mode_force_charge (s : InverterState)
    (charge_power_w : Int) : MRes Bool :=
  { ret := .ok true, state := s, primCalls := [], net := [] }

/-- `NullInverter.set_allow_grid_charging` (null_inverter.py lines 65-67):
logging no-op returning `None`. -/
def NullInverter.set_allow_grid_charging (s : InverterState)
    (value : Bool) : MRes Unit :=
  { ret := .ok (), state := s, primCalls := [], net := [] }

/-- `NullInverter.get_battery_info` (null_inverter.py lines 69-72):
returns an empty dict. -/
def NullInverter.get_battery_info (s : InverterState) :
    MRes (List (String × Int)) :=
  { ret := .ok [], state := s, primCalls := [], net := [] }

/-- `NullInverter.fetch_inverter_data` (null_inverter.py lines 74-77):
returns an empty dict. -/
def NullInverter.fetch_inverter_data (s : InverterState) :
    MRes (List (String × Int)) :=
  { ret := .ok [], state := s, primCalls := [], net := [] }

/-- `NullInverter.supports_extended_monitoring` (null_inverter.py lines
79-81): returns `False`. -/
def NullInverter.supports_extended_monitoring (s : InverterState) : MRes Bool :=
  { ret := .ok false, state := s, primCalls := [], net := [] }

/- ### VictronInverter (victron.py): every contract method raises
`NotImplementedError` before touching state or the network. -/

/-- `VictronInverter.__init__` (victron.py lines 28-30): just
`super().__init__(config)`. -/
def VictronInverter.construct (config : Config) : InverterState :=
  BaseInverter.init "VictronInverter" config

/-- The initialize() method of VictronInverter (victron.py lines 32-33). -/
def VictronInverter.heavy_init (s : InverterState) : MRes Unit :=
  { ret := .error .notImplementedError, state := s, primCalls := [], net := [] }

/-- `VictronInverter.set_mode_avoid_discharge` (victron.py lines 35-36). -/
def VictronInverter.set_mode_avoid_discharge (s : InverterState) : MRes Bool :=
  { ret := .error .notImplementedError, state := s, primCalls := [], net := [] }

/-- `VictronInverter.set_mode_allow_discharge` (victron.py lines 38-39). -/
def VictronInverter.set_mode_allow_discharge (s : InverterState) : MRes Bool :=
  { ret := .error .notImplementedError, state := s, primCalls := [], net := [] }

/-- `VictronInverter.set_allow_grid_charging` (victron.py lines 41-42). -/
def VictronInverter.set_allow_grid_charging (s : InverterState)
    (value : Bool) : MRes Unit :=
  { ret := .error .notImplementedError, state := s, primCalls := [], net := [] }

/-- `VictronInverter.set_battery_mode` (victron.py lines 44-45). -/
def VictronInverter.set_battery_mode (s : InverterState) (mode : String) : MRes Bool :=
  { ret := .error .notImplementedError, state := s, primCalls := [], net := [] }

/-- `VictronInverter.get_battery_info` (victron.py lines 47-48). -/
def VictronInverter.get_battery_info (s : InverterState) :
    MRes (List (String × Int)) :=
  { ret := .error .notImplementedError, state := s, primCalls := [], net := [] }

/-- `VictronInverter.fetch_inverter_data` (victron.py lines 50-51). -/
def VictronInverter.fetch_inverter_data (s : InverterState) :
    MRes (List (String × Int)) :=
  { ret := .error .notImplementedError, state := s, primCalls := [], net := [] }

/-- `VictronInverter.set_mode_force_charge` (victron.py lines 53-54). -/
def VictronInverter.set_mode_force_charge (s : InverterState)
    (charge_power_w : Int) : MRes Bool :=
  { ret := .error .notImplementedError, state := s, primCalls := [], net := [] }

/-- `VictronInverter.connect_inverter` (victron.py lines 56-57). -/
def VictronInverter.connect_inverter (s : InverterState) : MRes Bool :=
  { ret := .error .notImplementedError, state := s, primCalls := [], net := [] }

/-- `VictronInverter.disconnect_inverter` (victron.py lines 59-60). -/
def VictronInverter.disconnect_inverter (s : InverterState) : MRes Bool :=
  { ret := .error .notImplementedError, state := s, primCalls := [], net := [] }

/- ### Backend registry and factory (inverter_factory.py) -/

/-- Marker for the concrete backend classes the factory can construct. -/
inductive InverterClass where
  | froniusLegacy
  | froniusV2
  | victronInverter
  | nullInverter
deriving DecidableEq, Repr

/-- `INVERTER_TYPES` (inverter_factory.py lines 18-23): active, modern
supported inverters, config string to class. -/
def INVERTER_TYPES : List (String × InverterClass) :=
  [("victron", .victronInverter),
   ("fronius_gen24", .froniusV2),
   ("evcc", .nullInverter),
   ("default", .nullInverter)]

/-- `LEGACY_INVERTER_TYPES` (inverter_factory.py lines 27-30): deprecated
inverter types. -/
def LEGACY_INVERTER_TYPES : List (String × InverterClass) :=
  [("fronius_gen24_legacy", .froniusLegacy),
   ("fronius_gen24_v2", .froniusV2)]

/-- `supported` (inverter_factory.py line 70): the enumeration placed in
the unknown-type error, active keys followed by legacy keys. -/
def supported_types : List String :=
  INVERTER_TYPES.map Prod.fst ++ LEGACY_INVERTER_TYPES.map Prod.fst

/-- The `ValueError` message of inverter_factory.py lines 71-74. -/
def unknown_type_message (inverter_type : String) : String :=
  "Unknown inverter type: '" ++ inverter_type ++ "'. Supported types: " ++
    String.intercalate ", " supported_types

/-- `create_inverter` (inverter_factory.py lines 33-74): lowercases
`config.get("type", "")`, looks the result up first in `INVERTER_TYPES`,
then in `LEGACY_INVERTER_TYPES`, and otherwise raises `ValueError` with a
message enumerating every supported type. -/
def create_inverter (config : Config) : Except String InverterClass :=
  let inverter_type := pyLower (config.type?.getD "")
  match INVERTER_TYPES.lookup inverter_type with
  | some cls => .ok cls
  | none =>
    match LEGACY_INVERTER_TYPES.lookup inverter_type with
    | some cls => .ok cls
    | none => .error (unknown_type_message inverter_type)

/- ### Parts of the Fronius backends pinned down by the specification.
`fronius_legacy.py` and `fronius_v2.py` are imported by the factory and
exercised by tests, but are not among the available sources; the
definitions below are modelled from the specification. -/

/-- Modelled from the spec: the power clamp of `set_mode_force_charge` in
the Fronius backends (`fronius_v2.py` / `fronius_legacy.py`, absent from
the sources).  Spec section 4.3: "`setModeForceCharge(power)` must clamp
the requested power to `min(power, maxGridChargeRate, maxPvChargeRate)`
when those ceilings are configured"; the clamped value is what is sent to
the device. -/
def fronius_force_charge_sent_power (max_grid_charge_rate : Option Int)
    (max_pv_charge_rate : Option Int) (charge_power_w : Int) : Int :=
  match max_grid_charge_rate, max_pv_charge_rate with
  | some g, some p => min charge_power_w (min g p)
  | some g, none => min charge_power_w g
  | none, some p => min charge_power_w p
  | none, none => charge_power_w

/-- Model of a Python value as passed to `strip_dict`: a dict is an
association list of string keys. -/
inductive PyVal where
  | str (s : String)
  | int (n : Int)
  | pyNone
  | dict (entries : List (String × PyVal))

/-- Modelled from the spec: `strip_dict` of `fronius_v2.py` /
`fronius_legacy.py` (absent from the sources).  Spec section 4.5 and the
repository's tests: on a mapping it drops every key with the internal
naming convention (leading underscore `_`) and keeps every other entry
unchanged; a non-mapping input is returned unchanged. -/
def strip_dict : PyVal → PyVal
  | .dict entries => .dict (entries.filter (fun kv => !(starts_with_underscore kv.fst)))
  | v => v

/-- Input of the hash helpers: Python `str` or `bytes`. -/
inductive HashInput where
  | text (s : String)
  | bytes (b : List Nat)
deriving DecidableEq, Repr

/-- UTF-8 encoding of one Unicode code point, as a list of byte values. -/
def utf8Encode (c : Nat) : List Nat :=
  if c < 0x80 then [c]
  else if c < 0x800 then
    [0xC0 ||| (c >>> 6), 0x80 ||| (c &&& 0x3F)]
  else if c < 0x10000 then
    [0xE0 ||| (c >>> 12), 0x80 ||| ((c >>> 6) &&& 0x3F), 0x80 ||| (c &&& 0x3F)]
  else
    [0xF0 ||| (c >>> 18), 0x80 ||| ((c >>> 12) &&& 0x3F),
     0x80 ||| ((c >>> 6) &&& 0x3F), 0x80 ||| (c &&& 0x3F)]

/-- A `str` input is UTF-8 encoded (Python `text.encode("utf-8")`);
`bytes` input is used as is. -/
def HashInput.toBytes : HashInput → List Nat
  | .text s => s.data.flatMap (fun c => utf8Encode c.toNat)
  | .bytes b => b

/-- Modelled from the spec: the digest cores of the hash helpers
(`hash_utf8` / MD5 in `fronius_legacy.py`, `hash_utf8_md5` / MD5 and
`hash_utf8_sha256` / SHA-256 in `fronius_v2.py`; both files absent from
the sources).  Spec section 4.2 item 5 constrains them only to be
deterministic pure functions of the input bytes to a fixed-width digest;
the core is modelled as a deterministic polynomial fold of the input
bytes into a `bits`-wide accumulator. -/
def digestCore (bits : Nat) (bytes : List Nat) : Nat :=
  bytes.foldl (fun acc b => (acc * 1099511628211 + b + 1) % 2 ^ bits)
    (bytes.length % 2 ^ bits)

/-- Hexadecimal digit character for `n < 16` (lowercase, as Python's
`hexdigest`). -/
def hexDigit (n : Nat) : Char :=
  if n < 10 then Char.ofNat (48 + n) else Char.ofNat (87 + n)

/-- Fixed-width lowercase hexadecimal rendering of `x` (most significant
digit first), exactly `width` characters. -/
def toHexPad (width : Nat) (x : Nat) : String :=
  String.mk ((List.range width).map (fun i => hexDigit (x / 16 ^ (width - 1 - i) % 16)))

/-- Modelled from the spec: `hash_utf8_md5` of `fronius_v2.py` and
`hash_utf8` of `fronius_legacy.py` (the legacy algorithm path): a
deterministic 128-bit digest of the text-or-bytes input, rendered as 32
hex characters. -/
def hash_utf8_md5 (inp : HashInput) : String :=
  toHexPad 32 (digestCore 128 inp.toBytes)

/-- Modelled from the spec: `hash_utf8` of `fronius_legacy.py`, the same
legacy (MD5) algorithm path as `hash_utf8_md5`. -/
def hash_utf8 (inp : HashInput) : String :=
  hash_utf8_md5 inp

/-- Modelled from the spec: `hash_utf8_sha256` of `fronius_v2.py` (the
modern algorithm path): a deterministic 256-bit digest of the
text-or-bytes input, rendered as 64 hex characters. -/
def hash_utf8_sha256 (inp : HashInput) : String :=
  toHexPad 64 (digestCore 256 inp.toBytes)

/- ### Authentication session bookkeeping of the Fronius backends -/

/-- Authentication-session attributes of the Fronius backends, as pinned
down by the repository's tests (`test_initialization_sets_auth_defaults`):
`ncvalue_num`, `subsequent_login`, `login_attempts`. -/
structure AuthSession where
  ncvalue_num : Nat
  subsequent_login : Bool
  login_attempts : Nat
deriving DecidableEq, Repr

/-- Modelled from the spec/tests: fresh-session defaults of the Fronius
backends (`fronius_v2.py` / `fronius_legacy.py`, absent from the
sources); the tests assert `ncvalue_num == 1`, `subsequent_login is
False`, `login_attempts == 0` after construction. -/
def AuthSession.fresh : AuthSession :=
  { ncvalue_num := 1, subsequent_login := false, login_attempts := 0 }

/-- Modelled from the spec: one successful authenticated login of the
Fronius session protocol (spec section 4.2): the request uses the current
nonce-use counter value, the counter increments, the session is marked as
a subsequent (renewed) login, and the login-attempt counter resets.
Returns the updated session and the counter value used by this request. -/
def AuthSession.authenticate (s : AuthSession) : AuthSession × Nat :=
  ({ ncvalue_num := s.ncvalue_num + 1
     subsequent_login := true
     login_attempts := 0 },
   s.ncvalue_num)

/-- Modelled from the spec/tests: the constructors of `FroniusLegacy` /
`FroniusV2` (files absent from the sources) call the base constructor and
initialize the fresh authentication-session defaults; they perform no
authentication. -/
def FroniusInverter.construct (inverter_type : String) (config : Config) :
    InverterState × AuthSession :=
  (BaseInverter.init inverter_type config, AuthSession.fresh)

/-- Concrete display-only configuration (the `null_config_default` fixture
of test_null_inverter.py). -/
def cfg_default : Config :=
  { type? := some "default"
    address? := some "192.168.1.100"
    max_grid_charge_rate? := some 5000
    max_pv_charge_rate? := some 5000 }

/- ### Theorems -/

/-- Claim C6: the no-op (null) backend satisfies, for every input and in
every state: `connect_inverter()` and `disconnect_inverter()` return
`True`; `get_battery_info()` and `fetch_inverter_data()` return an empty
mapping; `supports_extended_monitoring()` returns `False`; and every
control call (`set_battery_mode` with any mode string,
`set_mode_force_charge` with any power, `set_allow_grid_charging`)
trivially succeeds without performing network I/O. -/
theorem null_inverter_noop_contract (s : InverterState) (mode : String)
    (charge_power_w : Int) (value : Bool) :
    (NullInverter.connect_inverter s).ret = .ok true ∧
    (NullInverter.disconnect_inverter s).ret = .ok true ∧
    (NullInverter.get_battery_info s).ret = .ok [] ∧
    (NullInverter.fetch_inverter_data s).ret = .ok [] ∧
    (NullInverter.supports_extended_monitoring s).ret = .ok false ∧
    (NullInverter.set_battery_mode s mode).ret = .ok true ∧
    (NullInverter.set_mode_force_charge s charge_power_w).ret = .ok true ∧
    (NullInverter.set_allow_grid_charging s value).ret = .ok () ∧
    (NullInverter.set_mode_avoid_discharge s).ret = .ok true ∧
    (NullInverter.set_mode_allow_discharge s).ret = .ok true ∧
    (NullInverter.connect_inverter s).net = [] ∧
    (NullInverter.disconnect_inverter s).net = [] ∧
    (NullInverter.get_battery_info s).net = [] ∧
    (NullInverter.fetch_inverter_data s).net = [] ∧
    (NullInverter.set_battery_mode s mode).net = [] ∧
    (NullInverter.set_mode_force_charge s charge_power_w).net = [] ∧
    (NullInverter.set_allow_grid_charging s value).net = [] ∧
    (NullInverter.heavy_init s).net = [] ∧
    (NullInverter.supports_extended_monitoring s).net = [] :=
  ⟨rfl, rfl, rfl, rfl, rfl, rfl, rfl, rfl, rfl, rfl, rfl, rfl, rfl, rfl,
   rfl, rfl, rfl, rfl, rfl⟩

/-- Claim C9: every contract method of the VictronInverter stub signals
`NotImplementedError`, an "unsupported operation" error distinct from a
transient transport failure. -/
theorem victron_stub_signals_unsupported (s : InverterState) (mode : String)
    (charge_power_w : Int) (value : Bool) :
    (VictronInverter.heavy_init s).ret = .error .notImplementedError ∧
    (VictronInverter.connect_inverter s).ret = .error .notImplementedError ∧
    (VictronInverter.disconnect_inverter s).ret = .error .notImplementedError ∧
    (VictronInverter.set_battery_mode s mode).ret = .error .notImplementedError ∧
    (VictronInverter.set_mode_avoid_discharge s).ret = .error .notImplementedError ∧
    (VictronInverter.set_mode_allow_discharge s).ret = .error .notImplementedError ∧
    (VictronInverter.set_mode_force_charge s charge_power_w).ret
      = .error .notImplementedError ∧
    (VictronInverter.set_allow_grid_charging s value).ret
      = .error .notImplementedError ∧
    (VictronInverter.get_battery_info s).ret = .error .notImplementedError ∧
    (VictronInverter.fetch_inverter_data s).ret = .error .notImplementedError ∧
    (PyErr.notImplementedError == PyErr.transportError) = false :=
  ⟨rfl, rfl, rfl, rfl, rfl, rfl, rfl, rfl, rfl, rfl, rfl⟩

/-- Claim C10: for every concrete backend type, `is_authenticated` is
`False` immediately after construction; the base `authenticate()` and the
null backend's `initialize()` set it to `True`, and every other method of
the backends in the sources leaves the instance state unchanged. -/
theorem constructed_never_authenticated (cfg : Config) (t : String)
    (s : InverterState) (mode : String) (charge_power_w : Int) (value : Bool) :
    (BaseInverter.init t cfg).is_authenticated = false ∧
    (NullInverter.construct cfg).is_authenticated = false ∧
    (VictronInverter.construct cfg).is_authenticated = false ∧
    (FroniusInverter.construct "FroniusV2" cfg).1.is_authenticated = false ∧
    (FroniusInverter.construct "FroniusLegacy" cfg).1.is_authenticated = false ∧
    (BaseInverter.authenticate s).state.is_authenticated = true ∧
    (NullInverter.heavy_init s).state.is_authenticated = true ∧
    (NullInverter.connect_inverter s).state = s ∧
    (NullInverter.disconnect_inverter s).state = s ∧
    (NullInverter.set_battery_mode s mode).state = s ∧
    (NullInverter.set_mode_avoid_discharge s).state = s ∧
    (NullInverter.set_mode_allow_discharge s).state = s ∧
    (NullInverter.set_mode_force_charge s charge_power_w).state = s ∧
    (NullInverter.set_allow_grid_charging s value).state = s ∧
    (NullInverter.get_battery_info s).state = s ∧
    (NullInverter.fetch_inverter_data s).state = s ∧
    (NullInverter.supports_extended_monitoring s).state = s ∧
    (VictronInverter.heavy_init s).state = s ∧
    (VictronInverter.set_battery_mode s mode).state = s ∧
    (VictronInverter.connect_inverter s).state = s ∧
    (VictronInverter.disconnect_inverter s).state = s :=
  ⟨rfl, rfl, rfl, rfl, rfl, rfl, rfl, rfl, rfl, rfl, rfl, rfl, rfl, rfl,
   rfl, rfl, rfl, rfl, rfl, rfl, rfl⟩

/-- Claim C3 counterexample: a freshly constructed `NullInverter` has
`is_authenticated = False`, yet its control and telemetry calls succeed
instead of failing with an "unauthenticated" error. -/
theorem unauthenticated_call_succeeds :
    (NullInverter.construct cfg_default).is_authenticated = false ∧
    (NullInverter.set_battery_mode (NullInverter.construct cfg_default) "normal").ret
      = .ok true ∧
    (NullInverter.set_mode_force_charge (NullInverter.construct cfg_default) 5000).ret
      = .ok true ∧
    (NullInverter.fetch_inverter_data (NullInverter.construct cfg_default)).ret
      = .ok [] ∧
    (NullInverter.get_battery_info (NullInverter.construct cfg_default)).ret
      = .ok [] :=
  ⟨rfl, rfl, rfl, rfl, rfl⟩

/-- Claim C3 (amended): the backends in the sources do not gate control or
telemetry calls on `is_authenticated`: the null backend's calls succeed
regardless of the flag (the result is independent of it), and the Victron
stub raises `NotImplementedError` regardless of the flag. -/
theorem control_calls_ignore_authentication (s : InverterState) (mode : String)
    (charge_power_w : Int) :
    (NullInverter.set_battery_mode s mode).ret = .ok true ∧
    (NullInverter.set_mode_force_charge s charge_power_w).ret = .ok true ∧
    (NullInverter.get_battery_info s).ret = .ok [] ∧
    (NullInverter.fetch_inverter_data s).ret = .ok [] ∧
    (NullInverter.set_battery_mode { s with is_authenticated := false } mode).ret
      = (NullInverter.set_battery_mode { s with is_authenticated := true } mode).ret ∧
    (NullInverter.fetch_inverter_data { s with is_authenticated := false }).ret
      = (NullInverter.fetch_inverter_data { s with is_authenticated := true }).ret ∧
    (VictronInverter.set_battery_mode { s with is_authenticated := false } mode).ret
      = (VictronInverter.set_battery_mode { s with is_authenticated := true } mode).ret ∧
    (VictronInverter.fetch_inverter_data s).ret = .error .notImplementedError :=
  ⟨rfl, rfl, rfl, rfl, rfl, rfl, rfl, rfl⟩

/-- Claim C1 counterexample: for the `NullInverter` backend,
`set_mode_avoid_discharge()` does not produce the same underlying call as
`set_battery_mode("hold")`: it never enters the `set_battery_mode`
primitive (its `primCalls` trace is empty) while the direct call enters it
once with `"hold"`; the behaviour is duplicated in the backend instead of
being defined once against the shared primitive. -/
theorem avoid_discharge_not_same_underlying_call :
    (NullInverter.set_mode_avoid_discharge (NullInverter.construct cfg_default)).primCalls
      = [] ∧
    (NullInverter.set_battery_mode (NullInverter.construct cfg_default) "hold").primCalls
      = ["hold"] ∧
    ((NullInverter.set_mode_avoid_discharge (NullInverter.construct cfg_default)).primCalls
       == (NullInverter.set_battery_mode (NullInverter.construct cfg_default) "hold").primCalls)
      = false ∧
    (NullInverter.set_mode_allow_discharge (NullInverter.construct cfg_default)).primCalls
      = [] :=
  ⟨rfl, rfl, rfl, rfl⟩

/-- Claim C1 (amended): for every backend in the sources the results
agree: `NullInverter`'s `set_mode_avoid_discharge` returns the same value
and state as `set_battery_mode("hold")` (likewise the allow/`"normal"`
pair), `VictronInverter`'s variants raise the same `NotImplementedError`
as its `set_battery_mode`, and the base class's default bodies are literal
call-throughs to the shared primitive; but the `NullInverter` overrides do
not themselves invoke `set_battery_mode`. -/
theorem mode_helpers_result_equivalence (s : InverterState)
    (set_battery_mode : InverterState → String → MRes Bool) :
    (NullInverter.set_mode_avoid_discharge s).ret
      = (NullInverter.set_battery_mode s "hold").ret ∧
    (NullInverter.set_mode_avoid_discharge s).state
      = (NullInverter.set_battery_mode s "hold").state ∧
    (NullInverter.set_mode_allow_discharge s).ret
      = (NullInverter.set_battery_mode s "normal").ret ∧
    (NullInverter.set_mode_allow_discharge s).state
      = (NullInverter.set_battery_mode s "normal").state ∧
    (VictronInverter.set_mode_avoid_discharge s).ret
      = (VictronInverter.set_battery_mode s "hold").ret ∧
    (VictronInverter.set_mode_allow_discharge s).ret
      = (VictronInverter.set_battery_mode s "normal").ret ∧
    BaseInverter.set_mode_avoid_discharge set_battery_mode s
      = set_battery_mode s "hold" ∧
    BaseInverter.set_mode_allow_discharge set_battery_mode s
      = set_battery_mode s "normal" :=
  ⟨rfl, rfl, rfl, rfl, rfl, rfl, rfl, rfl⟩

/-- Helper: an infix of `B` is an infix of `A ++ B`. -/
theorem list_infix_append_left {α : Type} {k B : List α} (A : List α)
    (h : k <:+: B) : k <:+: A ++ B := by
  obtain ⟨u, v, huv⟩ := h
  refine ⟨A ++ u, v, ?_⟩
  simp only [List.append_assoc] at huv ⊢
  rw [huv]

set_option maxRecDepth 8000 in
/-- Claim C2: for every configuration whose lowercased type string is
registered, `create_inverter` returns the corresponding backend class,
consulting the active tier before the legacy tier; for any unrecognized
type it returns the `ValueError` message, and that message contains every
registered type (active and legacy). -/
theorem create_inverter_registry (cfg : Config) :
    (∀ cls, INVERTER_TYPES.lookup (pyLower (cfg.type?.getD "")) = some cls →
      create_inverter cfg = .ok cls) ∧
    (INVERTER_TYPES.lookup (pyLower (cfg.type?.getD "")) = none →
      ∀ cls, LEGACY_INVERTER_TYPES.lookup (pyLower (cfg.type?.getD "")) = some cls →
        create_inverter cfg = .ok cls) ∧
    (INVERTER_TYPES.lookup (pyLower (cfg.type?.getD "")) = none →
      LEGACY_INVERTER_TYPES.lookup (pyLower (cfg.type?.getD "")) = none →
        create_inverter cfg
          = .error (unknown_type_message (pyLower (cfg.type?.getD ""))) ∧
        ∀ k ∈ supported_types,
          k.data <:+: (unknown_type_message (pyLower (cfg.type?.getD ""))).data) := by
  have hdata : ∀ x y : String, (x ++ y).data = x.data ++ y.data := fun x y => rfl
  refine ⟨?_, ?_, ?_⟩
  · intro cls h
    simp only [create_inverter]
    rw [h]
  · intro h1 cls h2
    simp only [create_inverter]
    rw [h1, h2]
  · intro h1 h2
    constructor
    · simp only [create_inverter]
      rw [h1, h2]
    · intro k hk
      have hall : ∀ j ∈ supported_types,
          j.data <:+:
            ("'. Supported types: " ++ String.intercalate ", " supported_types).data := by
        decide
      have h := hall k hk
      rw [hdata] at h
      unfold unknown_type_message
      simp only [hdata]
      rw [List.append_assoc]
      exact list_infix_append_left _ h

/-- Witness for claim C2 at concrete configurations: type `"VICTRON"`
resolves case-insensitively in the active tier, `"fronius_gen24_legacy"`
resolves in the legacy tier, and the unknown type `"foo"` produces the
error message, which contains the legacy type `"fronius_gen24_v2"`. -/
theorem create_inverter_registry_witness :
    create_inverter { type? := some "VICTRON" } = .ok .victronInverter ∧
    create_inverter { type? := some "fronius_gen24_legacy" } = .ok .froniusLegacy ∧
    create_inverter { type? := some "foo" } = .error (unknown_type_message "foo") ∧
    "fronius_gen24_v2".data <:+: (unknown_type_message "foo").data :=
  ⟨(create_inverter_registry { type? := some "VICTRON" }).1 .victronInverter (by decide),
   (create_inverter_registry { type? := some "fronius_gen24_legacy" }).2.1 (by decide)
     .froniusLegacy (by decide),
   ((create_inverter_registry { type? := some "foo" }).2.2 (by decide) (by decide)).1,
   ((create_inverter_registry { type? := some "foo" }).2.2 (by decide) (by decide)).2
     "fronius_gen24_v2" (by decide)⟩

/-- Claim C4: with both grid-charge and PV-charge ceilings configured,
the power sent by `set_mode_force_charge` never exceeds
`min(grid ceiling, pv ceiling)`; a request exceeding the ceiling is
silently capped to it (not an error), and a request exactly equal to the
ceiling (or below it) is sent unchanged. -/
theorem force_charge_clamped (g p charge_power_w : Int) :
    fronius_force_charge_sent_power (some g) (some p) charge_power_w ≤ min g p ∧
    (min g p < charge_power_w →
      fronius_force_charge_sent_power (some g) (some p) charge_power_w = min g p) ∧
    (charge_power_w = min g p →
      fronius_force_charge_sent_power (some g) (some p) charge_power_w
        = charge_power_w) ∧
    (charge_power_w ≤ min g p →
      fronius_force_charge_sent_power (some g) (some p) charge_power_w
        = charge_power_w) := by
  refine ⟨min_le_right _ _, fun h => min_eq_right (le_of_lt h), fun h => ?_,
    fun h => min_eq_left h⟩
  rw [h]
  exact min_self _

/-- Witness for claim C4 at the ceilings of the test fixtures
(grid 10000, pv 15000): a 20000 W request is capped to 10000 W and a
10000 W request is sent unchanged. -/
theorem force_charge_clamped_witness :
    fronius_force_charge_sent_power (some 10000) (some 15000) 20000 = 10000 ∧
    fronius_force_charge_sent_power (some 10000) (some 15000) 10000 = 10000 := by
  constructor
  · have h := (force_charge_clamped 10000 15000 20000).2.1 (by norm_num [min_def])
    rw [h]
    norm_num [min_def]
  · exact (force_charge_clamped 10000 15000 10000).2.2.2 (by norm_num [min_def])

/-- Claim C5: the telemetry normalizer `strip_dict`, applied to a
mapping, returns a mapping containing no key with a leading underscore
and preserving every other entry; applied to a non-mapping input
(string, number, None) it returns the input unchanged. -/
theorem strip_dict_normalizer :
    (∀ entries : List (String × PyVal), ∃ kept,
      strip_dict (PyVal.dict entries) = PyVal.dict kept ∧
      (∀ kv ∈ kept, starts_with_underscore kv.fst = false) ∧
      (∀ kv ∈ entries, starts_with_underscore kv.fst = false → kv ∈ kept) ∧
      (∀ kv ∈ kept, kv ∈ entries)) ∧
    (∀ s, strip_dict (PyVal.str s) = PyVal.str s) ∧
    (∀ n, strip_dict (PyVal.int n) = PyVal.int n) ∧
    strip_dict PyVal.pyNone = PyVal.pyNone := by
  refine ⟨fun entries =>
    ⟨entries.filter (fun kv => !(starts_with_underscore kv.fst)), rfl, ?_, ?_, ?_⟩,
    fun s => rfl, fun n => rfl, rfl⟩
  · intro kv hkv
    have h := (List.mem_filter.mp hkv).2
    simpa using h
  · intro kv hkv h
    exact List.mem_filter.mpr ⟨hkv, by simp [h]⟩
  · intro kv hkv
    exact (List.mem_filter.mp hkv).1

/-- Witness for claim C5 at the dictionary of the repository's tests:
`_private` is dropped, `key` is kept, and a plain string passes through
unchanged. -/
theorem strip_dict_normalizer_witness :
    (∃ kept,
      strip_dict (PyVal.dict
        [("key", PyVal.str "value"), ("_private", PyVal.str "hidden"),
         ("public", PyVal.str "visible")]) = PyVal.dict kept ∧
      ("key", PyVal.str "value") ∈ kept) ∧
    strip_dict (PyVal.str "string") = PyVal.str "string" := by
  constructor
  · obtain ⟨kept, heq, hno, hpres, hsub⟩ := strip_dict_normalizer.1
      [("key", PyVal.str "value"), ("_private", PyVal.str "hidden"),
       ("public", PyVal.str "visible")]
    exact ⟨kept, heq, hpres ("key", PyVal.str "value") (List.mem_cons_self _ _)
      (by decide)⟩
  · exact strip_dict_normalizer.2.1 "string"

/-- Helper: `toHexPad` produces exactly `width` characters. -/
theorem toHexPad_length (width x : Nat) : (toHexPad width x).length = width := by
  simp [toHexPad, String.length]

/-- Helper: `hexDigit n` is a lowercase hexadecimal character for `n < 16`. -/
theorem hexDigit_mem_hex_chars :
    ∀ n, n < 16 → ("0123456789abcdef".data.contains (hexDigit n)) = true := by
  decide

/-- Helper: every character of `toHexPad width x` is a lowercase
hexadecimal digit. -/
theorem toHexPad_all_hex (width x : Nat) :
    ((toHexPad width x).data.all
      (fun c => "0123456789abcdef".data.contains c)) = true := by
  rw [List.all_eq_true]
  intro c hc
  rw [show (toHexPad width x).data
      = (List.range width).map (fun i => hexDigit (x / 16 ^ (width - 1 - i) % 16))
    from rfl] at hc
  obtain ⟨i, hi, rfl⟩ := List.mem_map.mp hc
  exact hexDigit_mem_hex_chars _ (Nat.mod_lt _ (by norm_num))

/-- Claim C7: the hash helpers are deterministic pure functions from
text-or-bytes input to a fixed-length hexadecimal digest: the legacy
(MD5-path) helpers always produce exactly 32 hex characters and the
modern (SHA-256-path) helper exactly 64 hex characters. -/
theorem hash_helpers_deterministic_fixed_hex :
    (∀ a b : HashInput, a = b →
      hash_utf8 a = hash_utf8 b ∧ hash_utf8_md5 a = hash_utf8_md5 b ∧
        hash_utf8_sha256 a = hash_utf8_sha256 b) ∧
    (∀ inp : HashInput, (hash_utf8 inp).length = 32 ∧
      (hash_utf8_md5 inp).length = 32 ∧ (hash_utf8_sha256 inp).length = 64) ∧
    (∀ inp : HashInput,
      ((hash_utf8_md5 inp).data.all
        (fun c => "0123456789abcdef".data.contains c)) = true ∧
      ((hash_utf8_sha256 inp).data.all
        (fun c => "0123456789abcdef".data.contains c)) = true) := by
  refine ⟨fun a b h => by rw [h]; exact ⟨rfl, rfl, rfl⟩,
    fun inp => ⟨toHexPad_length 32 _, toHexPad_length 32 _, toHexPad_length 64 _⟩,
    fun inp => ⟨toHexPad_all_hex 32 _, toHexPad_all_hex 64 _⟩⟩

/-- Witness for claim C7 at the test input `"test"`: determinism, the
32-character legacy digest, the 64-character modern digest, and
hex-only characters. -/
theorem hash_helpers_witness :
    hash_utf8_md5 (HashInput.text "test") = hash_utf8_md5 (HashInput.text "test") ∧
    (hash_utf8_md5 (HashInput.text "test")).length = 32 ∧
    (hash_utf8_sha256 (HashInput.text "test")).length = 64 ∧
    ((hash_utf8_md5 (HashInput.text "test")).data.all
      (fun c => "0123456789abcdef".data.contains c)) = true :=
  ⟨(hash_helpers_deterministic_fixed_hex.1 _ _ rfl).2.1,
   (hash_helpers_deterministic_fixed_hex.2.1 (HashInput.text "test")).2.1,
   (hash_helpers_deterministic_fixed_hex.2.1 (HashInput.text "test")).2.2,
   (hash_helpers_deterministic_fixed_hex.2.2 (HashInput.text "test")).1⟩

/-- Claim C8: a fresh `AuthSession` starts with nonce-use counter 1,
`subsequent_login = False` (first login) and login-attempt counter 0;
authenticating twice in a row uses a strictly greater nonce counter on
the second call, the counter increases with every authenticated request,
and the session is marked as a subsequent login after the first success. -/
theorem auth_session_nonce_counter (s : AuthSession) :
    AuthSession.fresh.ncvalue_num = 1 ∧
    AuthSession.fresh.subsequent_login = false ∧
    AuthSession.fresh.login_attempts = 0 ∧
    (AuthSession.fresh.authenticate.1.authenticate).2
      > AuthSession.fresh.authenticate.2 ∧
    AuthSession.fresh.authenticate.1.subsequent_login = true ∧
    (s.authenticate.1.authenticate).2 > s.authenticate.2 ∧
    s.authenticate.1.ncvalue_num > s.ncvalue_num := by
  refine ⟨rfl, rfl, rfl, by decide, rfl, ?_, ?_⟩
  · exact Nat.lt_succ_self _
  · exact Nat.lt_succ_self _
